import Mathlib

/-!
Verification of `src/util/types/mytime.go` (package `types`).

The Go code is embedded shallowly:

* Go `int` is modelled as `Int`; Go integer division and remainder truncate
  toward zero, so they are modelled by `Int.tdiv` and `Int.tmod`.
* The unsigned struct fields (`uint16`, `uint8`, `uint32`) are modelled as
  `Nat` values; the Go conversions `uint16(x)` etc. performed by
  `newMysqlTime` are modelled by the mathematical remainder modulo the width,
  which is exactly two's-complement truncation of a Go `int` to an unsigned
  field.
* `gotime.Date` / `Date` / `Clock` / `Nanosecond` from the Go standard
  library `time` package are modelled further below by `goDate` and the
  accessors on `gotimeTime`, with the ambient process-wide location
  `gotime.Local` made explicit as a fixed-offset parameter.
-/

namespace MyTime

/-- Model of the Go struct `mysqlTime`: seven unsigned fields
(year `uint16`, month day hour minute second `uint8`, microsecond `uint32`).
The fields are stored as the natural numbers they denote. -/
structure mysqlTime where
  year : Nat
  month : Nat
  day : Nat
  hour : Nat
  minute : Nat
  second : Nat
  microsecond : Nat
  deriving DecidableEq, Repr

/-- Accessor `Year`: Go returns `int(t.year)`. -/
def mysqlTime.Year (t : mysqlTime) : Int := t.year

/-- Accessor `Month`: Go returns `int(t.month)`. -/
def mysqlTime.Month (t : mysqlTime) : Int := t.month

/-- Accessor `Day`: Go returns `int(t.day)`. -/
def mysqlTime.Day (t : mysqlTime) : Int := t.day

/-- Accessor `Hour`: Go returns `int(t.hour)`. -/
def mysqlTime.Hour (t : mysqlTime) : Int := t.hour

/-- Accessor `Minute`: Go returns `int(t.minute)`. -/
def mysqlTime.Minute (t : mysqlTime) : Int := t.minute

/-- Accessor `Second`: Go returns `int(t.second)`. -/
def mysqlTime.Second (t : mysqlTime) : Int := t.second

/-- Accessor `Microsecond`: Go returns `int(t.microsecond)`. -/
def mysqlTime.Microsecond (t : mysqlTime) : Int := t.microsecond

/-- Model of `newMysqlTime`: the Go conversions `uint16(year)`, `uint8(month)`,
..., `uint32(microsecond)` keep the low bits of the two's-complement argument,
i.e. they reduce the argument modulo 2^16, 2^8 and 2^32 respectively. -/
def newMysqlTime (year month day hour minute second microsecond : Int) :
    mysqlTime where
  year := (year % 65536).toNat
  month := (month % 256).toNat
  day := (day % 256).toNat
  hour := (hour % 256).toNat
  minute := (minute % 256).toNat
  second := (second % 256).toNat
  microsecond := (microsecond % 4294967296).toNat

/-- Model of `calcDaynr`.  Go source:

    y := year
    if y == 0 && month == 0 { return 0 }
    delsum := 365*y + 31*(month-1) + day
    if month <= 2 { y-- } else { delsum -= month*4 + 23/10 }
    temp := (y/100 + 1) * 3 / 4
    return delsum + y/4 - temp

Go `/` truncates toward zero, hence `Int.tdiv`; in particular the constant
`23/10` evaluates to `2`. -/
def calcDaynr (year month day : Int) : Int :=
  if year = 0 ∧ month = 0 then 0
  else
    let delsum := 365 * year + 31 * (month - 1) + day
    let y := if month ≤ 2 then year - 1 else year
    let delsum := if month ≤ 2 then delsum
                  else delsum - (month * 4 + Int.tdiv 23 10)
    let temp := Int.tdiv ((Int.tdiv y 100 + 1) * 3) 4
    delsum + Int.tdiv y 4 - temp

/-- Model of `calcDaysInYear`.  The Go test `(year&3) == 0` is bitwise AND on
a two's-complement `int`, which is zero exactly when the year is divisible by
4, i.e. when `year.tmod 4 = 0`; the Go remainders `year%100` and `year%400`
truncate toward zero (`Int.tmod`). -/
def calcDaysInYear (year : Int) : Int :=
  if Int.tmod year 4 = 0 ∧
      (Int.tmod year 100 ≠ 0 ∨ (Int.tmod year 400 = 0 ∧ year ≠ 0)) then 366
  else 365

/-- Model of `calcWeekday`:

    daynr += 5
    if sundayFirstDayOfWeek { daynr++ }
    return daynr % 7

Go `%` truncates toward zero, hence `Int.tmod`. -/
def calcWeekday (daynr : Int) (sundayFirstDayOfWeek : Bool) : Int :=
  let daynr := daynr + 5
  let daynr := if sundayFirstDayOfWeek then daynr + 1 else daynr
  Int.tmod daynr 7

/-- Model of the Go type `weekBehaviour` (an unsigned integer of flags). -/
abbrev weekBehaviour := Nat

/-- Flag `weekBehaviourMondayFirst = 1 << 0`. -/
def weekBehaviourMondayFirst : weekBehaviour := 1

/-- Flag `weekBehaviourWeekYear = 1 << 1`. -/
def weekBehaviourWeekYear : weekBehaviour := 2

/-- Flag `weekBehaviourWeekFirstWeekday = 1 << 2`. -/
def weekBehaviourWeekFirstWeekday : weekBehaviour := 4

/-- Model of the method `test`: `(v & flag) != 0`. -/
def weekBehaviour.test (v flag : weekBehaviour) : Bool := v &&& flag ≠ 0

/-- Tail of `calcWeek` shared by the early-January branch and the ordinary
path: computes `days`, applies the end-of-year rollover check, and returns
`(week, owning year)`.  This factors the part of the Go function after the
first `if` block, with the mutable locals passed explicitly. -/
def calcWeekRest (daynr first_daynr : Int) (week_year first_weekday : Bool)
    (weekday year : Int) : Int × Int :=
  let days :=
    if (first_weekday = true ∧ weekday ≠ 0) ∨
        (first_weekday = false ∧ 4 ≤ weekday) then
      daynr - (first_daynr + 7 - weekday)
    else
      daynr - (first_daynr - weekday)
  if week_year = true ∧ 52 * 7 ≤ days then
    let weekday := Int.tmod (weekday + calcDaysInYear year) 7
    if (first_weekday = false ∧ weekday < 4) ∨
        (first_weekday = true ∧ weekday = 0) then
      (1, year + 1)
    else
      (Int.tdiv days 7 + 1, year)
  else
    (Int.tdiv days 7 + 1, year)

/-- Model of `calcWeek`.  The Go function takes `t *mysqlTime`, the behaviour
flags, and an out-parameter `*year`; the model returns the pair
`(week, final value of *year)`. -/
def calcWeek (t : mysqlTime) (wb : weekBehaviour) : Int × Int :=
  let daynr := calcDaynr t.year t.month t.day
  let first_daynr := calcDaynr t.year 1 1
  let monday_first := wb.test weekBehaviourMondayFirst
  let week_year := wb.test weekBehaviourWeekYear
  let first_weekday := wb.test weekBehaviourWeekFirstWeekday
  let weekday := calcWeekday first_daynr (!monday_first)
  let year : Int := t.year
  if t.month = 1 ∧ (t.day : Int) ≤ 7 - weekday then
    if week_year = false ∧
        ((first_weekday = true ∧ weekday ≠ 0) ∨
          (first_weekday = false ∧ 4 ≤ weekday)) then
      (0, year)
    else
      let year := year - 1
      let days := calcDaysInYear year
      let first_daynr := first_daynr - days
      let weekday := Int.tmod (weekday + 53 * 7 - days) 7
      calcWeekRest daynr first_daynr true first_weekday weekday year
  else
    calcWeekRest daynr first_daynr week_year first_weekday weekday year

/-!
Model of the parts of the Go standard library `time` package used by
`GoTime`, `Weekday`, `YearDay` and `ISOWeek`.  A `gotime.Time` value is an
absolute instant together with its location; the location is modelled as a
fixed offset (seconds east of UTC).  `gotime.Local` is ambient process-wide
state in Go; every operation that reads it takes the offset explicitly here,
so that dependence on the ambient zone is visible in the statements.
-/

/-- Model of a `gotime.Time` value: the absolute instant as Unix seconds plus
nanoseconds, and the offset of its location. -/
structure gotimeTime where
  unixSec : Int
  nsec : Int
  offset : Int
  deriving DecidableEq, Repr

/-- Normalisation helper of `gotime.Date` (the Go function `norm`): brings
`lo` into `[0, base)` by moving whole multiples of `base` into `hi`.  Go does
this with sign-corrected truncating division; the result is exactly floored
division, i.e. `/` and `%` on `Int`. -/
def goNorm (hi lo base : Int) : Int × Int := (hi + lo / base, lo % base)

/-- Leap-year rule of the Go `time` package (`isLeap`):
`year%4 == 0 && (year%100 != 0 || year%400 == 0)`.  The three tests against
zero do not depend on the rounding convention of the remainder. -/
def goIsLeap (year : Int) : Bool :=
  year % 4 == 0 && (year % 100 != 0 || year % 400 == 0)

/-- Cumulative day counts of the Go table `daysBefore`: days in a non-leap
year strictly before month `m` (1-based). -/
def goDaysBefore (m : Nat) : Int :=
  match m with
  | 1 => 0
  | 2 => 31
  | 3 => 59
  | 4 => 90
  | 5 => 120
  | 6 => 151
  | 7 => 181
  | 8 => 212
  | 9 => 243
  | 10 => 273
  | 11 => 304
  | 12 => 334
  | _ => 0

/-- Days from January 1 of year 0 to January 1 of year `y` in the proleptic
Gregorian calendar with Go's leap rule (year 0 is leap).  Equals the
difference of Go's `daysSinceEpoch` values. -/
def daysFromYear0 (y : Int) : Int :=
  365 * y + ((y - 1) / 4 - (y - 1) / 100 + (y - 1) / 400 + 1)

/-- Inverse conversion (the Go function `absDate` semantically): `(y, m, d)`
of the civil day that lies `z` days after 1970-01-01, proleptic Gregorian. -/
def civilFromDays (z : Int) : Int × Int × Int :=
  let z := z + 719468
  let era := z / 146097
  let doe := z - era * 146097
  let yoe := (doe - doe / 1460 + doe / 36524 - doe / 146096) / 365
  let y := yoe + era * 400
  let doy := doe - (365 * yoe + yoe / 4 - yoe / 100)
  let mp := (5 * doy + 2) / 153
  let d := doy - (153 * mp + 2) / 5 + 1
  let m := if mp < 10 then mp + 3 else mp - 9
  (if m ≤ 2 then y + 1 else y, m, d)

/-- Model of `gotime.Date(year, month, day, hour, min, sec, nsec, loc)` for a
fixed-offset location `offset`: normalise month into year, normalise the
clock fields by the `norm` chain, add the (unnormalised) day offset to the
first of the month, and shift the wall-clock seconds by the offset to obtain
the absolute instant. -/
def goDate (year month day hour min sec nsec offset : Int) : gotimeTime :=
  let p1 := goNorm year (month - 1) 12
  let year := p1.1
  let month := p1.2 + 1
  let p2 := goNorm sec nsec 1000000000
  let sec := p2.1
  let nsec := p2.2
  let p3 := goNorm min sec 60
  let min := p3.1
  let sec := p3.2
  let p4 := goNorm hour min 60
  let hour := p4.1
  let min := p4.2
  let p5 := goNorm day hour 24
  let day := p5.1
  let hour := p5.2
  let d := daysFromYear0 year - daysFromYear0 1970 + goDaysBefore month.toNat
    + (if goIsLeap year ∧ 3 ≤ month then 1 else 0) + (day - 1)
  let wall := d * 86400 + hour * 3600 + min * 60 + sec
  { unixSec := wall - offset, nsec := nsec, offset := offset }

/-- Wall-clock seconds of a `gotime.Time` in its own location. -/
def gotimeTime.localSec (t : gotimeTime) : Int := t.unixSec + t.offset

/-- Civil day number (days since 1970-01-01) of the instant in its location. -/
def gotimeTime.days (t : gotimeTime) : Int := t.localSec / 86400

/-- Seconds past local midnight. -/
def gotimeTime.daySecs (t : gotimeTime) : Int := t.localSec % 86400

/-- Model of the method `Date()`: the civil `(year, month, day)`. -/
def gotimeTime.date (t : gotimeTime) : Int × Int × Int := civilFromDays t.days

/-- Model of the method `Clock()`: `(hour, minute, second)`. -/
def gotimeTime.clock (t : gotimeTime) : Int × Int × Int :=
  (t.daySecs / 3600, t.daySecs % 3600 / 60, t.daySecs % 60)

/-- Model of the method `Nanosecond()`. -/
def gotimeTime.nanosecond (t : gotimeTime) : Int := t.nsec

/-- Model of the method `Weekday()` of `gotime.Time` (0 = Sunday, ...,
6 = Saturday); 1970-01-01 was a Thursday (= 4). -/
def gotimeTime.goWeekday (t : gotimeTime) : Int := (t.days + 4) % 7

/-- Model of the method `YearDay()` of `gotime.Time` (1-based day of year). -/
def gotimeTime.goYearDay (t : gotimeTime) : Int :=
  let y := (civilFromDays t.days).1
  t.days - (daysFromYear0 y - daysFromYear0 1970) + 1

/-- Model of the method `ISOWeek()` of `gotime.Time`: the ISO 8601 year and
week, computed from the Thursday of the ISO week containing the instant. -/
def gotimeTime.goISOWeek (t : gotimeTime) : Int × Int :=
  let wd := (t.goWeekday + 6) % 7
  let thu := t.days - wd + 3
  let y := (civilFromDays thu).1
  (y, (thu - (daysFromYear0 y - daysFromYear0 1970)) / 7 + 1)

/-- The single error value of this core, `ErrInvalidTimeFormat`. -/
inductive goError where
  | ErrInvalidTimeFormat
  deriving DecidableEq, Repr

/-- Model of the method `GoTime()`.  Go builds the time with
`gotime.Date(..., gotime.Local)`; the ambient process-wide location
`gotime.Local` appears here as the explicit argument `localOffset`.  The
normalised value is re-extracted field by field and compared with the input;
on any mismatch the normalised value is returned together with
`ErrInvalidTimeFormat`, otherwise with no error. -/
def mysqlTime.GoTime (t : mysqlTime) (localOffset : Int) :
    gotimeTime × Option goError :=
  let tm := goDate t.Year t.Month t.Day t.Hour t.Minute t.Second
    (t.Microsecond * 1000) localOffset
  let ymd := tm.date
  let hms := tm.clock
  let microsec := tm.nanosecond / 1000
  if ymd.1 ≠ t.Year ∨ ymd.2.1 ≠ t.Month ∨ ymd.2.2 ≠ t.Day ∨
      hms.1 ≠ t.Hour ∨ hms.2.1 ≠ t.Minute ∨ hms.2.2 ≠ t.Second ∨
      microsec ≠ t.Microsecond then
    (tm, some goError.ErrInvalidTimeFormat)
  else
    (tm, none)

/-- Model of the method `Weekday()` of `mysqlTime`: delegates to `GoTime`,
returning `0` if that fails. -/
def mysqlTime.Weekday (t : mysqlTime) (localOffset : Int) : Int :=
  match t.GoTime localOffset with
  | (_, some _) => 0
  | (t1, none) => t1.goWeekday

/-- Model of the method `YearDay()` of `mysqlTime`: delegates to `GoTime`,
returning `0` if that fails. -/
def mysqlTime.YearDay (t : mysqlTime) (localOffset : Int) : Int :=
  match t.GoTime localOffset with
  | (_, some _) => 0
  | (t1, none) => t1.goYearDay

/-- Model of the method `ISOWeek()` of `mysqlTime`: delegates to `GoTime`,
returning `(0, 0)` if that fails. -/
def mysqlTime.ISOWeek (t : mysqlTime) (localOffset : Int) : Int × Int :=
  match t.GoTime localOffset with
  | (_, some _) => (0, 0)
  | (t1, none) => t1.goISOWeek

/-! Helper lemmas (not tied to a single claim). -/

/-- Truncating remainder is zero exactly on multiples. -/
lemma tmod_eq_zero_iff_dvd (y b : Int) : Int.tmod y b = 0 ↔ b ∣ y := by
  constructor
  · intro h
    refine ⟨y.tdiv b, ?_⟩
    have h2 := Int.tdiv_add_tmod y b
    rw [h, add_zero] at h2
    exact h2.symm
  · rintro ⟨k, rfl⟩
    exact Int.mul_tmod_right b k

/-- The leap-year oracle only ever answers 365 or 366. -/
lemma calcDaysInYear_eq_365_or_366 (y : Int) :
    calcDaysInYear y = 365 ∨ calcDaysInYear y = 366 := by
  unfold calcDaysInYear
  split_ifs <;> simp

/-- The wall-clock seconds produced by `goDate` do not depend on the offset:
the offset is subtracted to form the instant and added back by `localSec`. -/
lemma goDate_localSec_offset (a b c d e f g o : Int) :
    (goDate a b c d e f g o).localSec = (goDate a b c d e f g 0).localSec := by
  simp [goDate, gotimeTime.localSec]

/-- The nanosecond field produced by `goDate` does not depend on the offset. -/
lemma goDate_nsec_offset (a b c d e f g o : Int) :
    (goDate a b c d e f g o).nsec = (goDate a b c d e f g 0).nsec := by
  simp [goDate]

/-- Everything `Date`, `Clock` and `Nanosecond` extract from a `goDate`
result is independent of the offset. -/
lemma goDate_extract_offset (a b c d e f g o : Int) :
    (goDate a b c d e f g o).date = (goDate a b c d e f g 0).date ∧
    (goDate a b c d e f g o).clock = (goDate a b c d e f g 0).clock ∧
    (goDate a b c d e f g o).nanosecond = (goDate a b c d e f g 0).nanosecond := by
  have h1 := goDate_localSec_offset a b c d e f g o
  have h2 := goDate_nsec_offset a b c d e f g o
  refine ⟨?_, ?_, ?_⟩ <;>
    simp [gotimeTime.date, gotimeTime.clock, gotimeTime.days,
      gotimeTime.daySecs, gotimeTime.nanosecond, h1, h2]

/-- The first component of `GoTime` is always the `goDate` result. -/
lemma GoTime_fst (t : mysqlTime) (loc : Int) :
    (t.GoTime loc).1 =
      goDate t.Year t.Month t.Day t.Hour t.Minute t.Second
        (t.Microsecond * 1000) loc := by
  simp only [mysqlTime.GoTime]
  split_ifs <;> rfl

/-- The validity verdict and all extracted fields of `GoTime` are independent
of the supplied ambient offset. -/
lemma GoTime_offset_indep (t : mysqlTime) (loc : Int) :
    (t.GoTime loc).2 = (t.GoTime 0).2 ∧
    (t.GoTime loc).1.date = (t.GoTime 0).1.date ∧
    (t.GoTime loc).1.clock = (t.GoTime 0).1.clock ∧
    (t.GoTime loc).1.nanosecond = (t.GoTime 0).1.nanosecond ∧
    (t.GoTime loc).1.localSec = (t.GoTime 0).1.localSec := by
  obtain ⟨hd, hc, hn⟩ := goDate_extract_offset t.Year t.Month t.Day t.Hour
    t.Minute t.Second (t.Microsecond * 1000) loc
  have hl := goDate_localSec_offset t.Year t.Month t.Day t.Hour
    t.Minute t.Second (t.Microsecond * 1000) loc
  refine ⟨?_, ?_, ?_, ?_, ?_⟩
  · simp only [mysqlTime.GoTime]
    rw [hd, hc, hn]
    split_ifs <;> rfl
  · rw [GoTime_fst, GoTime_fst]; exact hd
  · rw [GoTime_fst, GoTime_fst]; exact hc
  · rw [GoTime_fst, GoTime_fst]; exact hn
  · rw [GoTime_fst, GoTime_fst]; exact hl

/-- The day number of January 1 of any representable year is positive. -/
lemma calcDaynr_11_pos (y : Nat) : 1 ≤ calcDaynr y 1 1 := by
  unfold calcDaynr
  rw [if_neg (by norm_num : ¬((y:Int) = 0 ∧ (1:Int) = 0))]
  norm_num
  rcases Nat.eq_zero_or_pos y with rfl | hy
  · decide
  · have h1 : (0:Int) ≤ (y:Int) - 1 := by omega
    rw [Int.tdiv_eq_ediv h1 (show (0:Int) ≤ 4 by norm_num),
      Int.tdiv_eq_ediv h1 (show (0:Int) ≤ 100 by norm_num)]
    have h2 : (0:Int) ≤ (((y:Int) - 1) / 100 + 1) * 3 := by
      have := Int.ediv_nonneg h1 (show (0:Int) ≤ 100 by norm_num)
      omega
    rw [Int.tdiv_eq_ediv h2 (show (0:Int) ≤ 4 by norm_num)]
    omega

/-- Closed form of `calcDaynr` by cases on the month, with the constant
`23/10` evaluated. -/
lemma calcDaynr_cases (year month day : Int) :
    calcDaynr year month day =
      if year = 0 ∧ month = 0 then 0
      else if month ≤ 2 then
        365 * year + 31 * (month - 1) + day + Int.tdiv (year - 1) 4 -
          Int.tdiv ((Int.tdiv (year - 1) 100 + 1) * 3) 4
      else
        365 * year + 31 * (month - 1) + day - (month * 4 + 2) + Int.tdiv year 4 -
          Int.tdiv ((Int.tdiv year 100 + 1) * 3) 4 := by
  unfold calcDaynr
  rw [show Int.tdiv 23 10 = (2:Int) from by decide]
  split_ifs <;> ring

/-- Bounds on the day-of-year offset computed by `calcDaynr` relative to
January 1 of the same year, for any month in [1,12] and day in [1,31]:
the offset is the day minus one in January, at least 31 from February on,
and always within [0,364]. -/
lemma calcDaynr_diff (y m d : Nat) (hm1 : 1 ≤ m) (hm2 : m ≤ 12)
    (hd1 : 1 ≤ d) (hd2 : d ≤ 31) :
    (m = 1 → calcDaynr y m d - calcDaynr y 1 1 = (d : Int) - 1) ∧
    0 ≤ calcDaynr y m d - calcDaynr y 1 1 ∧
    calcDaynr y m d - calcDaynr y 1 1 ≤ 364 ∧
    (2 ≤ m → 31 ≤ calcDaynr y m d - calcDaynr y 1 1) := by
  rw [calcDaynr_cases, calcDaynr_cases]
  rw [if_neg (show ¬((y:Int) = 0 ∧ (m:Int) = 0) by
        rintro ⟨-, hm0⟩; omega),
    if_neg (by norm_num : ¬((y:Int) = 0 ∧ (1:Int) = 0)),
    if_pos (show ((1:Int) ≤ 2) from by norm_num)]
  split_ifs with h
  · omega
  · rcases Nat.eq_zero_or_pos y with rfl | hy
    · simp only [Nat.cast_zero]
      have e1 : Int.tdiv ((0:Int) - 1) 4 = 0 := by decide
      have e2 : Int.tdiv ((0:Int) - 1) 100 = 0 := by decide
      have e3 : Int.tdiv (0:Int) 4 = 0 := by decide
      have e4 : Int.tdiv (0:Int) 100 = 0 := by decide
      have e5 : Int.tdiv ((Int.tdiv ((0:Int) - 1) 100 + 1) * 3) 4 = 0 := by
        decide
      have e6 : Int.tdiv ((Int.tdiv (0:Int) 100 + 1) * 3) 4 = 0 := by decide
      omega
    · have h0 : (0:Int) ≤ (y:Int) := by omega
      have h1 : (0:Int) ≤ (y:Int) - 1 := by omega
      rw [Int.tdiv_eq_ediv h0 (show (0:Int) ≤ 100 by norm_num),
        Int.tdiv_eq_ediv h1 (show (0:Int) ≤ 100 by norm_num)]
      have h2 : (0:Int) ≤ ((y:Int) / 100 + 1) * 3 := by
        have := Int.ediv_nonneg h0 (show (0:Int) ≤ 100 by norm_num)
        omega
      have h3 : (0:Int) ≤ (((y:Int) - 1) / 100 + 1) * 3 := by
        have := Int.ediv_nonneg h1 (show (0:Int) ≤ 100 by norm_num)
        omega
      rw [Int.tdiv_eq_ediv h0 (show (0:Int) ≤ 4 by norm_num),
        Int.tdiv_eq_ediv h1 (show (0:Int) ≤ 4 by norm_num),
        Int.tdiv_eq_ediv h2 (show (0:Int) ≤ 4 by norm_num),
        Int.tdiv_eq_ediv h3 (show (0:Int) ≤ 4 by norm_num)]
      omega

/-- Range of `calcWeekday` on non-negative day numbers. -/
lemma calcWeekday_mem (a : Int) (s : Bool) (h : 0 ≤ a) :
    0 ≤ calcWeekday a s ∧ calcWeekday a s ≤ 6 := by
  unfold calcWeekday
  cases s <;>
    simp only [if_true, if_false, Bool.false_eq_true, Bool.true_eq_false] <;>
    rw [Int.tmod_eq_emod (by omega) (by norm_num)] <;>
    constructor <;> omega

/-! Claim theorems. -/

/-- C6: for every integer year, `calcDaysInYear` returns 366 exactly when the
year is divisible by 4 and (not divisible by 100, or divisible by 400 and
nonzero), and 365 otherwise; in particular year 0 is non-leap and 2000 and
2024 are leap while 1900 is not. -/
theorem calcDaysInYear_leap_rule :
    (∀ y : Int, calcDaysInYear y = 366 ↔
        ((4:Int) ∣ y ∧ (¬(100:Int) ∣ y ∨ ((400:Int) ∣ y ∧ y ≠ 0)))) ∧
    (∀ y : Int, calcDaysInYear y = 366 ∨ calcDaysInYear y = 365) ∧
    calcDaysInYear 0 = 365 ∧ calcDaysInYear 2000 = 366 ∧
    calcDaysInYear 1900 = 365 ∧ calcDaysInYear 2024 = 366 := by
  refine ⟨?_, ?_, by decide, by decide, by decide, by decide⟩
  · intro y
    unfold calcDaysInYear
    simp only [tmod_eq_zero_iff_dvd, ne_eq]
    split_ifs with h
    · exact iff_of_true rfl (by tauto)
    · refine iff_of_false (by norm_num) (by tauto)
  · intro y
    rcases calcDaysInYear_eq_365_or_366 y with h | h <;> simp [h]

/-- C7: `calcDaynr` returns 0 for year 0 month 0, and otherwise equals
`delsum + y/4 - ((y/100 + 1) * 3) / 4` with truncating division, where
`delsum = 365*year + 31*(month-1) + day`, `y = year - 1` and `delsum`
unchanged for months up to 2, and `y = year`, `delsum` reduced by
`month*4 + 2` (the truncated constant `23/10`) for months above 2. -/
theorem calcDaynr_formula (year month day : Int) :
    calcDaynr year month day =
      if year = 0 ∧ month = 0 then 0
      else if month ≤ 2 then
        365 * year + 31 * (month - 1) + day + Int.tdiv (year - 1) 4 -
          Int.tdiv ((Int.tdiv (year - 1) 100 + 1) * 3) 4
      else
        365 * year + 31 * (month - 1) + day - (month * 4 + 2) + Int.tdiv year 4 -
          Int.tdiv ((Int.tdiv year 100 + 1) * 3) 4 := by
  unfold calcDaynr
  rw [show Int.tdiv 23 10 = (2:Int) from by decide]
  split_ifs <;> ring

/-- C8: construction by `newMysqlTime` never rejects: every component is
narrowed modulo the width of its field; and for components inside the
documented ranges every accessor reads back exactly the value passed in. -/
theorem newMysqlTime_narrowing (y mo d h mi s us : Int) :
    (((newMysqlTime y mo d h mi s us).year : Int) = y % 65536 ∧
     ((newMysqlTime y mo d h mi s us).month : Int) = mo % 256 ∧
     ((newMysqlTime y mo d h mi s us).day : Int) = d % 256 ∧
     ((newMysqlTime y mo d h mi s us).hour : Int) = h % 256 ∧
     ((newMysqlTime y mo d h mi s us).minute : Int) = mi % 256 ∧
     ((newMysqlTime y mo d h mi s us).second : Int) = s % 256 ∧
     ((newMysqlTime y mo d h mi s us).microsecond : Int) = us % 4294967296) ∧
    (0 ≤ y ∧ y ≤ 9999 ∧ 0 ≤ mo ∧ mo ≤ 12 ∧ 0 ≤ d ∧ d ≤ 31 ∧
        0 ≤ h ∧ h ≤ 23 ∧ 0 ≤ mi ∧ mi ≤ 59 ∧ 0 ≤ s ∧ s ≤ 59 ∧
        0 ≤ us ∧ us ≤ 999999 →
      (newMysqlTime y mo d h mi s us).Year = y ∧
      (newMysqlTime y mo d h mi s us).Month = mo ∧
      (newMysqlTime y mo d h mi s us).Day = d ∧
      (newMysqlTime y mo d h mi s us).Hour = h ∧
      (newMysqlTime y mo d h mi s us).Minute = mi ∧
      (newMysqlTime y mo d h mi s us).Second = s ∧
      (newMysqlTime y mo d h mi s us).Microsecond = us) := by
  have key : ∀ (a n : Int), 0 < n → ((a % n).toNat : Int) = a % n :=
    fun a n hn => Int.toNat_of_nonneg (Int.emod_nonneg a (by omega))
  constructor
  · refine ⟨key y 65536 (by norm_num), key mo 256 (by norm_num),
      key d 256 (by norm_num), key h 256 (by norm_num),
      key mi 256 (by norm_num), key s 256 (by norm_num),
      key us 4294967296 (by norm_num)⟩
  · intro hr
    refine ⟨?_, ?_, ?_, ?_, ?_, ?_, ?_⟩ <;>
      simp only [newMysqlTime, mysqlTime.Year, mysqlTime.Month, mysqlTime.Day,
        mysqlTime.Hour, mysqlTime.Minute, mysqlTime.Second,
        mysqlTime.Microsecond, key y 65536 (by norm_num),
        key mo 256 (by norm_num), key d 256 (by norm_num),
        key h 256 (by norm_num), key mi 256 (by norm_num),
        key s 256 (by norm_num), key us 4294967296 (by norm_num)] <;> omega

/-- Witness for C8 at the in-range input 2024-12-31 23:59:59.999999. -/
theorem newMysqlTime_narrowing_witness :
    (newMysqlTime 2024 12 31 23 59 59 999999).Year = 2024 ∧
    (newMysqlTime 2024 12 31 23 59 59 999999).Month = 12 ∧
    (newMysqlTime 2024 12 31 23 59 59 999999).Day = 31 ∧
    (newMysqlTime 2024 12 31 23 59 59 999999).Hour = 23 ∧
    (newMysqlTime 2024 12 31 23 59 59 999999).Minute = 59 ∧
    (newMysqlTime 2024 12 31 23 59 59 999999).Second = 59 ∧
    (newMysqlTime 2024 12 31 23 59 59 999999).Microsecond = 999999 :=
  (newMysqlTime_narrowing 2024 12 31 23 59 59 999999).2 (by norm_num)

/-- C4 counterexample: at day number -6 the weekday calculator returns -1
(Go's remainder truncates toward zero), so the claimed range [0,6] and
period-7 property fail for negative day numbers. -/
theorem calcWeekday_negative_counterexample :
    ¬((0 ≤ calcWeekday (-6) false ∧ calcWeekday (-6) false ≤ 6) ∧
      calcWeekday (-6 + 7) false = calcWeekday (-6) false) := by decide

/-- C4 amended: for every day number of at least -5 (so that the shifted
dividend is non-negative, which covers every day number the module itself
produces) and both flag values, the weekday calculator returns a value in
[0,6] and is periodic with period 7. -/
theorem calcWeekday_range_periodic (d : Int) (s : Bool) (h : -5 ≤ d) :
    (0 ≤ calcWeekday d s ∧ calcWeekday d s ≤ 6) ∧
    calcWeekday (d + 7) s = calcWeekday d s := by
  unfold calcWeekday
  cases s <;> simp only [if_true, if_false, Bool.false_eq_true, Bool.true_eq_false]
  · rw [Int.tmod_eq_emod (by omega) (by norm_num),
      Int.tmod_eq_emod (show (0:Int) ≤ d + 7 + 5 by omega) (by norm_num)]
    constructor
    · constructor <;> omega
    · omega
  · rw [Int.tmod_eq_emod (show (0:Int) ≤ d + 5 + 1 by omega) (by norm_num),
      Int.tmod_eq_emod (show (0:Int) ≤ d + 7 + 5 + 1 by omega) (by norm_num)]
    constructor
    · constructor <;> omega
    · omega

/-- Witness for C4 amended at day number 3. -/
theorem calcWeekday_range_periodic_witness :
    (-5:Int) ≤ 3 ∧ ((0 ≤ calcWeekday 3 false ∧ calcWeekday 3 false ≤ 6) ∧
      calcWeekday (3 + 7) false = calcWeekday 3 false) :=
  ⟨by norm_num, calcWeekday_range_periodic 3 false (by norm_num)⟩

/-- C1 counterexample: for 2000-01-01 the claimed week numbers at modes 4 and
6 (both 1, with owning year 2000 at mode 6) are wrong: the code returns week
0 at mode 4 and week 52 with owning year 1999 at mode 6. -/
theorem calcWeek_20000101_claim_counterexample :
    ¬((calcWeek (newMysqlTime 2000 1 1 0 0 0 0) 4).1 = 1 ∧
      (calcWeek (newMysqlTime 2000 1 1 0 0 0 0) 6).1 = 1) := by decide

/-- C1 amended: for 2000-01-01 the eight modes 0..7 return the week numbers
[0, 0, 52, 52, 0, 0, 52, 52], with owning year 1999 for modes 2, 3, 6 and 7
(the modes with the WeekYear bit set, which roll into the last week of 1999)
and 2000 for modes 0, 1, 4 and 5. -/
theorem calcWeek_20000101_table :
    (List.range 8).map (fun wb => calcWeek (newMysqlTime 2000 1 1 0 0 0 0) wb) =
      [(0, 2000), (0, 2000), (52, 1999), (52, 1999),
       (0, 2000), (0, 2000), (52, 1999), (52, 1999)] := by decide

/-- C10: for every input and every flag value the owning year returned by
`calcWeek` is the stored year, one less, or one more; it is one less only
when the stored month is 1, and one more only on the rollover path, in which
case the returned week is exactly 1. -/
theorem calcWeek_owning_year (t : mysqlTime) (wb : weekBehaviour) :
    ((calcWeek t wb).2 = (t.year : Int) - 1 ∨ (calcWeek t wb).2 = (t.year : Int) ∨
      (calcWeek t wb).2 = (t.year : Int) + 1) ∧
    ((calcWeek t wb).2 = (t.year : Int) - 1 → t.month = 1) ∧
    ((calcWeek t wb).2 = (t.year : Int) + 1 → (calcWeek t wb).1 = 1) := by
  simp only [calcWeek, calcWeekRest]
  split_ifs <;> refine ⟨?_, ?_, ?_⟩ <;> simp_all <;> omega

/-- C3: `GoTime` fails exactly when re-extracting the seven fields from the
normalised timestamp differs from the stored fields; the normalised value is
returned in every case, and the only error is `ErrInvalidTimeFormat`.  In
particular 2024-02-29 12:00:00.000000 converts successfully with all seven
fields reproduced, while 2023-02-29 fails with `ErrInvalidTimeFormat`,
whatever the ambient offset. -/
theorem goTime_roundtrip_validity :
    (∀ (t : mysqlTime) (loc : Int),
      (t.GoTime loc).1 =
        goDate t.Year t.Month t.Day t.Hour t.Minute t.Second
          (t.Microsecond * 1000) loc ∧
      (((t.GoTime loc).2).isSome = true ↔
        ¬((t.GoTime loc).1.date = (t.Year, t.Month, t.Day) ∧
          (t.GoTime loc).1.clock = (t.Hour, t.Minute, t.Second) ∧
          (t.GoTime loc).1.nanosecond / 1000 = t.Microsecond)) ∧
      (∀ e, (t.GoTime loc).2 = some e → e = goError.ErrInvalidTimeFormat)) ∧
    (∀ loc : Int,
      ((newMysqlTime 2024 2 29 12 0 0 0).GoTime loc).2 = none ∧
      ((newMysqlTime 2024 2 29 12 0 0 0).GoTime loc).1.date = (2024, 2, 29) ∧
      ((newMysqlTime 2024 2 29 12 0 0 0).GoTime loc).1.clock = (12, 0, 0) ∧
      ((newMysqlTime 2024 2 29 12 0 0 0).GoTime loc).1.nanosecond / 1000 = 0) ∧
    (∀ loc : Int,
      ((newMysqlTime 2023 2 29 12 0 0 0).GoTime loc).2 =
        some goError.ErrInvalidTimeFormat) := by
  refine ⟨?_, ?_, ?_⟩
  · intro t loc
    have hfst := GoTime_fst t loc
    refine ⟨hfst, ?_, ?_⟩
    · rw [hfst]
      simp only [mysqlTime.GoTime]
      split_ifs with h
      · simp only [Option.isSome_some, true_iff]
        simp only [Prod.ext_iff, GoTime_fst]
        tauto
      · simp only [Option.isSome_none, false_iff, not_not]
        simp only [Prod.ext_iff] at h ⊢
        tauto
    · intro e _
      cases e
      rfl
  · intro loc
    obtain ⟨h2, hd, hc, hn, _⟩ :=
      GoTime_offset_indep (newMysqlTime 2024 2 29 12 0 0 0) loc
    exact ⟨by rw [h2]; decide, by rw [hd]; decide, by rw [hc]; decide,
      by rw [hn]; decide⟩
  · intro loc
    have h2 := (GoTime_offset_indep (newMysqlTime 2023 2 29 12 0 0 0) loc).1
    rw [h2]; decide

/-- C5 counterexample: the conversion reads the ambient process-wide zone
(`gotime.Local`, the explicit offset parameter of the model), and two
invocations under different ambient offsets return different results for the
same input: the absolute instants differ. -/
theorem goTime_ambient_zone_counterexample :
    (newMysqlTime 2024 1 1 0 0 0 0).GoTime 0 ≠
      (newMysqlTime 2024 1 1 0 0 0 0).GoTime 3600 := by decide

/-- C5 amended: `GoTime` interprets the fields in the ambient process-wide
local zone it is invoked under (not an injected per-call parameter).  Two
invocations under different ambient offsets agree on the validity verdict
and on every extracted wall-clock field, but the returned timestamps carry
the ambient offset and denote instants shifted by the offset difference. -/
theorem goTime_ambient_zone_dependence (t : mysqlTime) (loc1 loc2 : Int) :
    (t.GoTime loc1).2 = (t.GoTime loc2).2 ∧
    (t.GoTime loc1).1.date = (t.GoTime loc2).1.date ∧
    (t.GoTime loc1).1.clock = (t.GoTime loc2).1.clock ∧
    (t.GoTime loc1).1.nanosecond = (t.GoTime loc2).1.nanosecond ∧
    (t.GoTime loc1).1.unixSec + loc1 = (t.GoTime loc2).1.unixSec + loc2 ∧
    (t.GoTime loc1).1.offset = loc1 := by
  obtain ⟨a1, b1, c1, d1, e1⟩ := GoTime_offset_indep t loc1
  obtain ⟨a2, b2, c2, d2, e2⟩ := GoTime_offset_indep t loc2
  have hoff : ∀ loc : Int, (t.GoTime loc).1.offset = loc := by
    intro loc
    rw [GoTime_fst]
    simp [goDate]
  have hloc : ∀ loc : Int,
      (t.GoTime loc).1.localSec = (t.GoTime loc).1.unixSec + loc := by
    intro loc
    rw [gotimeTime.localSec, hoff loc]
  refine ⟨a1.trans a2.symm, b1.trans b2.symm, c1.trans c2.symm,
    d1.trans d2.symm, ?_, hoff loc1⟩
  rw [← hloc loc1, ← hloc loc2, e1, e2]

/-- C9: whenever the underlying `GoTime` conversion fails, the derived
accessors silently return zero defaults: `Weekday` 0, `YearDay` 0 and
`ISOWeek` (0, 0), discarding the error. -/
theorem derived_accessors_zero_default (t : mysqlTime) (loc : Int)
    (h : ((t.GoTime loc).2).isSome = true) :
    t.Weekday loc = 0 ∧ t.YearDay loc = 0 ∧ t.ISOWeek loc = (0, 0) := by
  unfold mysqlTime.Weekday mysqlTime.YearDay mysqlTime.ISOWeek
  rcases hG : t.GoTime loc with ⟨tm, err⟩
  cases err with
  | none => rw [hG] at h; simp at h
  | some e => exact ⟨rfl, rfl, rfl⟩

/-- Witness for C9 at the invalid date 2023-02-29. -/
theorem derived_accessors_zero_default_witness :
    (((newMysqlTime 2023 2 29 12 0 0 0).GoTime 0).2).isSome = true ∧
    ((newMysqlTime 2023 2 29 12 0 0 0).Weekday 0 = 0 ∧
     (newMysqlTime 2023 2 29 12 0 0 0).YearDay 0 = 0 ∧
     (newMysqlTime 2023 2 29 12 0 0 0).ISOWeek 0 = (0, 0)) :=
  ⟨by decide, derived_accessors_zero_default _ 0 (by decide)⟩

/-- C2: for any date (month in [1,12], day in [1,31]) and any flag value,
if the WeekYear bit is set the returned week lies in [1,53]; if it is unset
the returned week is non-negative, is 0 only under the early-January
condition (month 1 and day at most 7 minus the weekday index of January 1),
and is at least 1 otherwise. -/
theorem calcWeek_week_range (t : mysqlTime) (wb : weekBehaviour)
    (hm : 1 ≤ t.month ∧ t.month ≤ 12) (hd : 1 ≤ t.day ∧ t.day ≤ 31) :
    (wb.test weekBehaviourWeekYear = true →
      1 ≤ (calcWeek t wb).1 ∧ (calcWeek t wb).1 ≤ 53) ∧
    (wb.test weekBehaviourWeekYear = false →
      0 ≤ (calcWeek t wb).1 ∧
      ((calcWeek t wb).1 = 0 →
        t.month = 1 ∧ (t.day : Int) ≤ 7 -
          calcWeekday (calcDaynr (t.year : Int) 1 1)
            (!wb.test weekBehaviourMondayFirst)) ∧
      (¬(t.month = 1 ∧ (t.day : Int) ≤ 7 -
          calcWeekday (calcDaynr (t.year : Int) 1 1)
            (!wb.test weekBehaviourMondayFirst)) →
        1 ≤ (calcWeek t wb).1)) := by
  obtain ⟨hm1, hm2⟩ := hm
  obtain ⟨hd1, hd2⟩ := hd
  obtain ⟨hjan, hge, hle, hfeb⟩ :=
    calcDaynr_diff t.year t.month t.day hm1 hm2 hd1 hd2
  have hF := calcDaynr_11_pos t.year
  have hw := calcWeekday_mem (calcDaynr (t.year : Int) 1 1)
    (!wb.test weekBehaviourMondayFirst) (by omega)
  have hYp := calcDaysInYear_eq_365_or_366 ((t.year : Int) - 1)
  have hY := calcDaysInYear_eq_365_or_366 (t.year : Int)
  simp only [calcWeek, calcWeekRest]
  set D := calcDaynr (t.year : Int) (t.month : Int) (t.day : Int) with hDdef
  set F := calcDaynr (t.year : Int) 1 1 with hFdef
  set w := calcWeekday F (!wb.test weekBehaviourMondayFirst) with hwdef
  set dy := calcDaysInYear ((t.year : Int) - 1) with hdydef
  set Y := calcDaysInYear (t.year : Int) with hYdef
  rw [show Int.tmod (w + 53 * 7 - dy) 7 = (w + 53 * 7 - dy) % 7 from
    Int.tmod_eq_emod (by omega) (by norm_num)]
  set w2 := (w + 53 * 7 - dy) % 7 with hw2def
  rw [show Int.tmod (w2 + dy) 7 = (w2 + dy) % 7 from
    Int.tmod_eq_emod (by omega) (by norm_num)]
  rw [show Int.tmod (w + Y) 7 = (w + Y) % 7 from
    Int.tmod_eq_emod (by omega) (by norm_num)]
  refine ⟨?_, ?_⟩
  · intro hwy
    rw [hwy]
    cases hfw : wb.test weekBehaviourWeekFirstWeekday <;>
      simp only [Bool.true_eq_false, Bool.false_eq_true, false_and, true_and,
        eq_self_iff_true, false_or, or_false, if_true, if_false,
        ite_true, ite_false] <;>
      split_ifs <;>
      dsimp only <;>
      (try rw [Int.tdiv_eq_ediv (by omega) (by norm_num)]) <;>
      constructor <;> omega
  · intro hwy
    rw [hwy]
    simp only [Bool.true_eq_false, Bool.false_eq_true, false_and, true_and,
      eq_self_iff_true, false_or, or_false, if_true, if_false,
      ite_true, ite_false]
    split_ifs <;>
      dsimp only <;>
      (try rw [Int.tdiv_eq_ediv (by omega) (by norm_num)]) <;>
      refine ⟨by omega, fun h0 => by omega, fun hne => by omega⟩

/-- Witness for C2 at the date 2000-07-15 with the WeekYear flag set. -/
theorem calcWeek_week_range_witness :
    ((1 ≤ (newMysqlTime 2000 7 15 0 0 0 0).month ∧
        (newMysqlTime 2000 7 15 0 0 0 0).month ≤ 12) ∧
      (1 ≤ (newMysqlTime 2000 7 15 0 0 0 0).day ∧
        (newMysqlTime 2000 7 15 0 0 0 0).day ≤ 31)) ∧
    (((2 : weekBehaviour).test weekBehaviourWeekYear = true →
        1 ≤ (calcWeek (newMysqlTime 2000 7 15 0 0 0 0) 2).1 ∧
          (calcWeek (newMysqlTime 2000 7 15 0 0 0 0) 2).1 ≤ 53) ∧
      ((2 : weekBehaviour).test weekBehaviourWeekYear = false →
        0 ≤ (calcWeek (newMysqlTime 2000 7 15 0 0 0 0) 2).1 ∧
        ((calcWeek (newMysqlTime 2000 7 15 0 0 0 0) 2).1 = 0 →
          (newMysqlTime 2000 7 15 0 0 0 0).month = 1 ∧
            ((newMysqlTime 2000 7 15 0 0 0 0).day : Int) ≤ 7 -
              calcWeekday
                (calcDaynr ((newMysqlTime 2000 7 15 0 0 0 0).year : Int) 1 1)
                (!(2 : weekBehaviour).test weekBehaviourMondayFirst)) ∧
        (¬((newMysqlTime 2000 7 15 0 0 0 0).month = 1 ∧
            ((newMysqlTime 2000 7 15 0 0 0 0).day : Int) ≤ 7 -
              calcWeekday
                (calcDaynr ((newMysqlTime 2000 7 15 0 0 0 0).year : Int) 1 1)
                (!(2 : weekBehaviour).test weekBehaviourMondayFirst)) →
          1 ≤ (calcWeek (newMysqlTime 2000 7 15 0 0 0 0) 2).1))) :=
  ⟨⟨⟨by decide, by decide⟩, ⟨by decide, by decide⟩⟩,
    calcWeek_week_range (newMysqlTime 2000 7 15 0 0 0 0) 2
      ⟨by decide, by decide⟩ ⟨by decide, by decide⟩⟩

/-- Witness for C3: the invalid 2023-02-29 fails, and the returned error is
the unique `ErrInvalidTimeFormat` value. -/
theorem goTime_roundtrip_validity_witness :
    ((newMysqlTime 2023 2 29 12 0 0 0).GoTime 0).2 =
        some goError.ErrInvalidTimeFormat ∧
    goError.ErrInvalidTimeFormat = goError.ErrInvalidTimeFormat :=
  ⟨by decide,
    (goTime_roundtrip_validity.1 (newMysqlTime 2023 2 29 12 0 0 0) 0).2.2
      goError.ErrInvalidTimeFormat (by decide)⟩

/-- Witness for C10 at 2000-01-01 with mode 2: the owning year 1999 is the
stored year minus one, and indeed the stored month is 1. -/
theorem calcWeek_owning_year_witness :
    (calcWeek (newMysqlTime 2000 1 1 0 0 0 0) 2).2 =
        ((newMysqlTime 2000 1 1 0 0 0 0).year : Int) - 1 ∧
    (newMysqlTime 2000 1 1 0 0 0 0).month = 1 :=
  ⟨by decide,
    (calcWeek_owning_year (newMysqlTime 2000 1 1 0 0 0 0) 2).2.1 (by decide)⟩

end MyTime
